import Mathlib

/-!
Verification of the cotahist price/volume dashboard (`app_preco_volume.py`).

The program is a single-file dashboard over one relational table
`cotahist_hist` with columns `codneg` (raw ticker code), `data_operacao`
(trade date), `preco_fechamento` (closing price) and `volume`.  The shallow
embedding below models:

* trade dates as `Int` day numbers (days since 1970-01-01), with the
  proleptic-Gregorian conversions `civilFromDays` / `daysFromCivil` used to
  model the data store's `DATE_TRUNC` and the `day/month/year` fields read
  by `formatar_data_ptbr`;
* the table as a `List RawRow`; SQL queries become Lean functions on that
  list (`lista_tickers`, `get_date_bounds`, `load_data`), with the data
  store's error channel modelled by `Option` (a `none` result is a query
  that the store refuses);
* the text/parameter split of the series query (`load_data_query`), which
  carries the SQL string exactly as the source interpolates it (only the
  granularity is spliced into the text; ticker and dates travel as bound
  parameters);
* the chart construction as a pure function `build_chart` into a
  `ChartSpec` record, and the page render `render_dashboard`, which also
  appends the "Atualizado em" caption computed from the current time.
-/

/-- Civil-from-days: day number since 1970-01-01 to (year, month, day) in the
proleptic Gregorian calendar, as the data store computes date fields. -/
def civilFromDays (z0 : Int) : Int × Int × Int :=
  let z := z0 + 719468
  let era := Int.fdiv z 146097
  let doe := z - era * 146097
  let yoe := Int.fdiv (doe - Int.fdiv doe 1460 + Int.fdiv doe 36524 - Int.fdiv doe 146096) 365
  let y := yoe + era * 400
  let doy := doe - (365 * yoe + Int.fdiv yoe 4 - Int.fdiv yoe 100)
  let mp := Int.fdiv (5 * doy + 2) 153
  let d := doy - Int.fdiv (153 * mp + 2) 5 + 1
  let m := if mp < 10 then mp + 3 else mp - 9
  (if m ≤ 2 then y + 1 else y, m, d)

/-- Days-from-civil: (year, month, day) to the day number since 1970-01-01. -/
def daysFromCivil (y0 m d : Int) : Int :=
  let y := if m ≤ 2 then y0 - 1 else y0
  let era := Int.fdiv y 400
  let yoe := y - era * 400
  let mp := if 2 < m then m - 3 else m + 9
  let doy := Int.fdiv (153 * mp + 2) 5 + d - 1
  let doe := yoe * 365 + Int.fdiv yoe 4 - Int.fdiv yoe 100 + doy
  era * 146097 + doe - 719468

/-- One row of the raw table `cotahist_hist`. -/
structure RawRow where
  codneg : String
  data_operacao : Int
  preco_fechamento : ℚ
  volume : Int
deriving DecidableEq, Repr

/-- One aggregated row returned by `load_data`: bucket start, mean price,
summed volume (the source's `data_agregada`/`preco`/`volume` columns, after
the final rename of `data_agregada` back to `data_operacao`). -/
structure AggPoint where
  data_operacao : Int
  preco : ℚ
  volume : Int
deriving DecidableEq, Repr

/-- The fixed twelve-entry month-name table of `formatar_data_ptbr`. -/
def meses : List String :=
  ["Janeiro", "Fevereiro", "Março", "Abril", "Maio", "Junho",
   "Julho", "Agosto", "Setembro", "Outubro", "Novembro", "Dezembro"]

/-- `formatar_data_ptbr`: formats a date as
`f"\x7bdt.day\x7d, \x7bmeses[dt.month-1]\x7d, \x7bdt.year\x7d"`. -/
def formatar_data_ptbr (dt : Int) : String :=
  let c := civilFromDays dt
  toString c.2.2 ++ ", " ++ meses.getD (c.2.1 - 1).toNat "" ++ ", " ++ toString c.1

/-- The pattern of the SQL filter `codneg ~ '^[A-Z]\x7b4\x7d\d'` (and of the
extraction regex `'^([A-Z]\x7b4\x7d\d\x7b1\x7d)'`, which matches whenever the
filter does): four ASCII uppercase letters followed by a digit. -/
def tickerPattern (s : String) : Bool :=
  match s.data with
  | a :: b :: c :: d :: e :: _ =>
      a.isUpper && b.isUpper && c.isUpper && d.isUpper && e.isDigit
  | _ => false

/-- The extracted group `(REGEXP_MATCH(codneg, '^([A-Z]\x7b4\x7d\d\x7b1\x7d)'))[1]`
(the source aliases it `ticker_clean`): the first five characters. -/
def ticker_clean (s : String) : String :=
  ⟨s.data.take 5⟩

/-- `lista_tickers`: `SELECT DISTINCT` of the extracted prefixes of the codes
matching the pattern, `ORDER BY ticker_clean` (then `dropna().unique()`,
which on this query drops nothing and keeps the order). -/
def lista_tickers (table : List String) : List String :=
  List.insertionSort (· ≤ ·) ((table.filter tickerPattern).map ticker_clean).dedup

/-- `get_date_bounds`: `SELECT MIN(data_operacao), MAX(data_operacao)`.
On an empty table both aggregates are SQL NULL, modelled as `none`; the
source returns the pair unchecked. -/
def get_date_bounds (table : List RawRow) : Option Int × Option Int :=
  match table.map RawRow.data_operacao with
  | [] => (none, none)
  | d :: ds => (some (ds.foldl min d), some (ds.foldl max d))

/-- The three `DATE_TRUNC` field values the dashboard can interpolate. -/
def validFreq (freq : String) : Bool :=
  freq == "D" || freq == "W" || freq == "M"

/-- `DATE_TRUNC(freq, d)` of the data store, on day numbers: `D` is the day
itself, `W` truncates to the preceding Monday (day 4, 1970-01-05, is a
Monday), `M` truncates to the first of the month. -/
def dateTrunc (freq : String) (d : Int) : Int :=
  if freq == "D" then d
  else if freq == "W" then d - Int.emod (d + 3) 7
  else if freq == "M" then
    let c := civilFromDays d
    daysFromCivil c.1 c.2.1 1
  else d

/-- The `WHERE` clause of `load_data`: `codneg = :t AND data_operacao
BETWEEN :ini AND :fim` (SQL `BETWEEN` is inclusive on both ends). -/
def rowMatches (t : String) (ini fim : Int) (r : RawRow) : Bool :=
  r.codneg == t && decide (ini ≤ r.data_operacao) && decide (r.data_operacao ≤ fim)

/-- The rows the `WHERE` clause of `load_data` keeps. -/
def matchingRows (table : List RawRow) (t : String) (ini fim : Int) : List RawRow :=
  table.filter (rowMatches t ini fim)

/-- The distinct bucket keys of `GROUP BY data_agregada`, in the order of
`ORDER BY data_agregada`. -/
def bucketKeys (rows : List RawRow) (freq : String) : List Int :=
  List.insertionSort (· ≤ ·) ((rows.map (fun r => dateTrunc freq r.data_operacao)).dedup)

/-- One output row of `load_data`'s query for bucket key `k`:
`AVG(preco_fechamento)` and `SUM(volume)` over the rows of the bucket. -/
def aggPoint (rows : List RawRow) (freq : String) (k : Int) : AggPoint :=
  { data_operacao := k
    preco :=
      ((rows.filter (fun r => dateTrunc freq r.data_operacao == k)).map
          RawRow.preco_fechamento).sum /
        (((rows.filter (fun r => dateTrunc freq r.data_operacao == k)).length : ℚ))
    volume := ((rows.filter (fun r => dateTrunc freq r.data_operacao == k)).map
        RawRow.volume).sum }

/-- The rows of `load_data`'s bucket `k`, named for the statements below. -/
def bucketRows (table : List RawRow) (t : String) (ini fim : Int) (freq : String)
    (k : Int) : List RawRow :=
  (matchingRows table t ini fim).filter (fun r => dateTrunc freq r.data_operacao == k)

/-- `load_data`: executes the aggregation query against the table.  The
source interpolates `freq` into the `DATE_TRUNC` field of the SQL text, so a
value outside the store's vocabulary makes the query itself fail: that error
channel is `none`.  For a valid field the result is the grouped, averaged,
summed and ordered list (an empty list when nothing matches). -/
def load_data (table : List RawRow) (t : String) (ini fim : Int) (freq : String) :
    Option (List AggPoint) :=
  if validFreq freq then
    some ((bucketKeys (matchingRows table t ini fim) freq).map
      (aggPoint (matchingRows table t ini fim) freq))
  else none

/-- The SQL text of `load_data`'s query exactly as the source's f-string
builds it: only `freq` is spliced into the text; `:t`, `:ini` and `:fim`
stay placeholders. -/
def load_data_sql (freq : String) : String :=
  "\n        SELECT \n            DATE_TRUNC('" ++ freq ++
    "', data_operacao) AS data_agregada,\n            AVG(preco_fechamento) AS preco,\n            SUM(volume) AS volume\n        FROM cotahist_hist\n        WHERE codneg = :t\n          AND data_operacao BETWEEN :ini AND :fim\n        GROUP BY data_agregada\n        ORDER BY data_agregada\n    "

/-- What `pd.read_sql(sql, engine, params=...)` receives from `load_data`:
the SQL text and the three bound parameters. -/
structure QueryCall where
  sql : String
  param_t : String
  param_ini : Int
  param_fim : Int
deriving DecidableEq, Repr

/-- The query `load_data` sends for given arguments. -/
def load_data_query (t : String) (ini fim : Int) (freq : String) : QueryCall :=
  { sql := load_data_sql freq, param_t := t, param_ini := ini, param_fim := fim }

/-- The sidebar's frequency options (`st.sidebar.radio`). -/
def freq_options : List String := ["Diária", "Semanal", "Mensal"]

/-- `freq_map`: the label-to-`DATE_TRUNC`-field dictionary. -/
def freq_map : List (String × String) :=
  [("Diária", "D"), ("Semanal", "W"), ("Mensal", "M")]

/-- `titulo_formatado`: the chart title built from the ticker, the
human-readable frequency label and the formatted range ends. -/
def titulo_formatado (ticker freq_label : String) (ini fim : Int) : String :=
  ticker ++ " | " ++ freq_label ++ " | " ++
    formatar_data_ptbr ini ++ " - " ++ formatar_data_ptbr fim

/-- One plotly trace of the figure: x/y data and the styling the source
sets on it. -/
structure Trace (α : Type) where
  x : List Int
  y : List α
  name : String
  color : String
  visible : String
deriving DecidableEq, Repr

/-- The figure specification the chart block assembles: the two traces,
their axis assignment, and the layout fields of `fig.update_layout` and
`fig.update_yaxes(rangemode="tozero", secondary_y=True)`. -/
structure ChartSpec where
  title : String
  priceTrace : Trace ℚ
  volumeTrace : Trace Int
  priceSecondaryY : Bool
  volumeSecondaryY : Bool
  xaxis_title : String
  yaxis_title : String
  yaxis2_title : String
  legend_orientation : String
  template : String
  height : Nat
  yaxis2_rangemode : String
deriving DecidableEq, Repr

/-- The chart-construction block (lines 171-225 of the source) as a function
of its inputs: the aggregated series and the display parameters. -/
def build_chart (df : List AggPoint) (ticker freq_label : String) (ini fim : Int) :
    ChartSpec :=
  { title := titulo_formatado ticker freq_label ini fim
    priceTrace :=
      { x := df.map AggPoint.data_operacao
        y := df.map AggPoint.preco
        name := "Preço (R$)"
        color := "#1f77b4"
        visible := "true" }
    volumeTrace :=
      { x := df.map AggPoint.data_operacao
        y := df.map AggPoint.volume
        name := "Volume"
        color := "lightgray"
        visible := "legendonly" }
    priceSecondaryY := false
    volumeSecondaryY := true
    xaxis_title := "Data"
    yaxis_title := "Preço (R$)"
    yaxis2_title := "Volume"
    legend_orientation := "h"
    template := "plotly_white"
    height := 600
    yaxis2_rangemode := "tozero" }

/-- One page render: the chart spec plus the footer caption, which is the
only place the current time (`pd.Timestamp.now()`) enters. -/
def render_dashboard (df : List AggPoint) (ticker freq_label : String) (ini fim : Int)
    (now : Int) : ChartSpec × String :=
  (build_chart df ticker freq_label ini fim,
   "Fonte: Banco de dados | Atualizado em " ++ formatar_data_ptbr now)

/-! Helper lemmas about the embedded queries. -/

theorem foldl_min_le (ds : List Int) : ∀ d : Int, ds.foldl min d ≤ d := by
  induction ds with
  | nil => intro d; exact le_refl d
  | cons x xs ih => intro d; exact le_trans (ih (min d x)) (min_le_left d x)

theorem le_foldl_max (ds : List Int) : ∀ d : Int, d ≤ ds.foldl max d := by
  induction ds with
  | nil => intro d; exact le_refl d
  | cons x xs ih => intro d; exact le_trans (le_max_left d x) (ih (max d x))

theorem mem_matchingRows {table : List RawRow} {t : String} {ini fim : Int} {r : RawRow} :
    r ∈ matchingRows table t ini fim ↔
      r ∈ table ∧ r.codneg = t ∧ ini ≤ r.data_operacao ∧ r.data_operacao ≤ fim := by
  simp [matchingRows, rowMatches, List.mem_filter, and_assoc]

theorem mem_bucketKeys {rows : List RawRow} {freq : String} {k : Int} :
    k ∈ bucketKeys rows freq ↔ ∃ r ∈ rows, dateTrunc freq r.data_operacao = k := by
  simp [bucketKeys]

theorem bucketKeys_sorted_lt (rows : List RawRow) (freq : String) :
    List.Sorted (· < ·) (bucketKeys rows freq) :=
  (List.sorted_insertionSort _ _).lt_of_le
    ((List.perm_insertionSort _ _).nodup_iff.mpr (List.nodup_dedup _))

theorem matchingRows_eq_nil {table : List RawRow} {t : String} {ini fim : Int}
    (h : ∀ r ∈ table, rowMatches t ini fim r = false) :
    matchingRows table t ini fim = [] := by
  rw [matchingRows, List.filter_eq_nil_iff]
  intro r hr
  simp [h r hr]

theorem ticker_clean_pattern {s : String} (h : tickerPattern s = true) :
    tickerPattern (ticker_clean s) = true ∧ (ticker_clean s).data.length = 5 := by
  obtain ⟨cs⟩ := s
  rcases cs with _ | ⟨a, _ | ⟨b, _ | ⟨c, _ | ⟨d, _ | ⟨e, rest⟩⟩⟩⟩⟩
  · exact Bool.noConfusion h
  · exact Bool.noConfusion h
  · exact Bool.noConfusion h
  · exact Bool.noConfusion h
  · exact Bool.noConfusion h
  · exact ⟨h, rfl⟩

/-! The claims. -/

/-- C1, the claim as frozen, refuted at a concrete input: with start = 7 >
end = 2 the series query does not fail — the query is issued against the
store and an (empty) result is returned. -/
theorem c1_claim_counterexample :
    (2 : Int) < 7 ∧
      load_data [⟨"PETR4", 10, 30, 100⟩] "PETR4" 7 2 "D" = some [] := by
  constructor
  · decide
  · decide

/-- C1 (amended): `load_data` performs no start/end validation at all; for
every call with a valid granularity and start > end the query is issued
anyway, its inclusive `BETWEEN` window is empty, and the call returns the
empty result (never an `InvalidRangeError`). -/
theorem c1_load_data_no_range_check (table : List RawRow) (t : String) (ini fim : Int)
    (freq : String) (hf : validFreq freq = true) (hlt : fim < ini) :
    load_data table t ini fim freq = some [] := by
  have hrows : matchingRows table t ini fim = [] := by
    refine matchingRows_eq_nil ?_
    intro r _
    rw [Bool.eq_false_iff]
    intro hTrue
    simp only [rowMatches, Bool.and_eq_true, beq_iff_eq, decide_eq_true_eq] at hTrue
    obtain ⟨⟨-, h1⟩, h2⟩ := hTrue
    omega
  simp [load_data, hf, hrows, bucketKeys]

/-- C1 witness: the amended theorem at a concrete input. -/
theorem c1_witness :
    validFreq "D" = true ∧ (3 : Int) < 5 ∧
      load_data [⟨"PETR4", 10, 30, 100⟩] "PETR4" 5 3 "D" = some [] :=
  ⟨by decide, by decide,
    c1_load_data_no_range_check [⟨"PETR4", 10, 30, 100⟩] "PETR4" 5 3 "D"
      (by decide) (by decide)⟩

/-- C2: on a table with zero rows `get_date_bounds` does not fail with an
`EmptyDatasetError` or any sentinel — it returns the NULL pair `(none,
none)`, which propagates downstream (the code bug); on a non-empty table the
returned bounds satisfy `min ≤ max` (the true half of the claim). -/
theorem c2_get_date_bounds_empty_null :
    get_date_bounds [] = (none, none) ∧
      ∀ (r : RawRow) (rs : List RawRow), ∃ a b : Int,
        get_date_bounds (r :: rs) = (some a, some b) ∧ a ≤ b := by
  refine ⟨rfl, fun r rs => ⟨_, _, rfl, ?_⟩⟩
  exact le_trans (foldl_min_le _ _) (le_foldl_max _ _)

/-- What C3 asserts of a `load_data` result: the call succeeds; the bucket
starts are strictly ascending (hence free of duplicate keys); every bucket
key is the truncation of the trade date of some raw observation of the
window with the requested ticker; every such observation lands in some
bucket; and each bucket carries the arithmetic mean of the prices and the
sum of the volumes of exactly its rows. -/
def LoadDataResultSpec (table : List RawRow) (t : String) (ini fim : Int)
    (freq : String) : Prop :=
  ∃ pts : List AggPoint,
    load_data table t ini fim freq = some pts ∧
    List.Sorted (· < ·) (pts.map AggPoint.data_operacao) ∧
    (∀ p ∈ pts, ∃ r ∈ table, r.codneg = t ∧ ini ≤ r.data_operacao ∧
      r.data_operacao ≤ fim ∧ dateTrunc freq r.data_operacao = p.data_operacao) ∧
    (∀ r ∈ table, r.codneg = t → ini ≤ r.data_operacao → r.data_operacao ≤ fim →
      ∃ p ∈ pts, p.data_operacao = dateTrunc freq r.data_operacao) ∧
    (∀ p ∈ pts,
      p.preco = ((bucketRows table t ini fim freq p.data_operacao).map
          RawRow.preco_fechamento).sum /
        ((bucketRows table t ini fim freq p.data_operacao).length : ℚ) ∧
      0 < (bucketRows table t ini fim freq p.data_operacao).length ∧
      p.volume = ((bucketRows table t ini fim freq p.data_operacao).map
          RawRow.volume).sum)

/-- C3: for every table state, ticker, valid window and granularity among
the three `DATE_TRUNC` fields the dashboard uses, the series query returns
exactly the in-window observations of the ticker, grouped by the truncated
date with mean price and summed volume per bucket, in strictly ascending
bucket order. -/
theorem c3_load_data_aggregation_spec (table : List RawRow) (t : String)
    (ini fim : Int) (freq : String) (hf : validFreq freq = true) (_hr : ini ≤ fim) :
    LoadDataResultSpec table t ini fim freq := by
  refine ⟨(bucketKeys (matchingRows table t ini fim) freq).map
    (aggPoint (matchingRows table t ini fim) freq), ?_, ?_, ?_, ?_, ?_⟩
  · simp [load_data, hf]
  · have hmap : ((bucketKeys (matchingRows table t ini fim) freq).map
        (aggPoint (matchingRows table t ini fim) freq)).map AggPoint.data_operacao
        = bucketKeys (matchingRows table t ini fim) freq := by
      rw [List.map_map]
      have hcomp : AggPoint.data_operacao ∘ aggPoint (matchingRows table t ini fim) freq
          = id := funext fun k => rfl
      rw [hcomp, List.map_id]
    rw [hmap]
    exact bucketKeys_sorted_lt _ _
  · intro p hp
    rw [List.mem_map] at hp
    obtain ⟨k, hk, rfl⟩ := hp
    rw [mem_bucketKeys] at hk
    obtain ⟨r, hr_mem, hr_trunc⟩ := hk
    rw [mem_matchingRows] at hr_mem
    exact ⟨r, hr_mem.1, hr_mem.2.1, hr_mem.2.2.1, hr_mem.2.2.2,
      by simpa [aggPoint] using hr_trunc⟩
  · intro r hr_mem hcod h1 h2
    have hk : dateTrunc freq r.data_operacao
        ∈ bucketKeys (matchingRows table t ini fim) freq :=
      mem_bucketKeys.mpr ⟨r, mem_matchingRows.mpr ⟨hr_mem, hcod, h1, h2⟩, rfl⟩
    exact ⟨aggPoint (matchingRows table t ini fim) freq (dateTrunc freq r.data_operacao),
      List.mem_map_of_mem _ hk, by simp [aggPoint]⟩
  · intro p hp
    rw [List.mem_map] at hp
    obtain ⟨k, hk, rfl⟩ := hp
    refine ⟨by simp [aggPoint, bucketRows], ?_, by simp [aggPoint, bucketRows]⟩
    rw [mem_bucketKeys] at hk
    obtain ⟨r, hr_mem, hr_trunc⟩ := hk
    have hr_bucket : r ∈ bucketRows table t ini fim freq
        (aggPoint (matchingRows table t ini fim) freq k).data_operacao := by
      simp only [aggPoint, bucketRows, List.mem_filter]
      exact ⟨hr_mem, by simp [hr_trunc]⟩
    exact List.length_pos.mpr (List.ne_nil_of_mem hr_bucket)

/-- C3 witness: the aggregation specification at a concrete table, ticker,
window and granularity. -/
theorem c3_witness :
    validFreq "W" = true ∧ (0 : Int) ≤ 20 ∧
      LoadDataResultSpec
        [⟨"PETR4", 10, 30, 100⟩, ⟨"PETR4", 11, 31, 100⟩, ⟨"VALE3", 12, 50, 7⟩]
        "PETR4" 0 20 "W" :=
  ⟨by decide, by decide,
    c3_load_data_aggregation_spec
      [⟨"PETR4", 10, 30, 100⟩, ⟨"PETR4", 11, 31, 100⟩, ⟨"VALE3", 12, 50, 7⟩]
      "PETR4" 0 20 "W" (by decide) (by decide)⟩

/-- C4: for every table state the catalog query returns a list with no
duplicates, sorted ascending in the lexicographic string order, in which
every entry is the four-uppercase-letters-plus-digit prefix extracted from
some raw code of the table that matches the pattern (in particular no null
or unmatched entry survives). -/
theorem c4_lista_tickers_spec (table : List String) :
    (lista_tickers table).Nodup ∧
    List.Sorted (· ≤ ·) (lista_tickers table) ∧
    ∀ x ∈ lista_tickers table, tickerPattern x = true ∧ x.data.length = 5 ∧
      ∃ c ∈ table, tickerPattern c = true ∧ x = ticker_clean c := by
  refine ⟨(List.perm_insertionSort _ _).nodup_iff.mpr (List.nodup_dedup _),
    List.sorted_insertionSort _ _, ?_⟩
  intro x hx
  simp only [lista_tickers, List.mem_insertionSort, List.mem_dedup, List.mem_map,
    List.mem_filter] at hx
  obtain ⟨c, ⟨hc_mem, hc_pat⟩, rfl⟩ := hx
  obtain ⟨h5, hlen⟩ := ticker_clean_pattern hc_pat
  exact ⟨h5, hlen, c, hc_mem, hc_pat, rfl⟩

/-- C5: the series query is parameterized — the SQL text sent to the store
is the same string for any two calls that differ only in ticker, start or
end, and those three values travel as bound parameters of the call. -/
theorem c5_load_data_parameterized (t₁ t₂ : String) (ini₁ fim₁ ini₂ fim₂ : Int)
    (freq : String) :
    (load_data_query t₁ ini₁ fim₁ freq).sql = (load_data_query t₂ ini₂ fim₂ freq).sql ∧
    (load_data_query t₁ ini₁ fim₁ freq).param_t = t₁ ∧
    (load_data_query t₁ ini₁ fim₁ freq).param_ini = ini₁ ∧
    (load_data_query t₁ ini₁ fim₁ freq).param_fim = fim₁ :=
  ⟨rfl, rfl, rfl, rfl⟩

/-- C6: the chart spec is a pure function of the series and the display
parameters — the render's current-time input only reaches the separately
appended caption, never the chart spec, and the spec equals `build_chart`
of the inputs. -/
theorem c6_chart_spec_pure (df : List AggPoint) (ticker freq_label : String)
    (ini fim now₁ now₂ : Int) :
    (render_dashboard df ticker freq_label ini fim now₁).1 =
      (render_dashboard df ticker freq_label ini fim now₂).1 ∧
    (render_dashboard df ticker freq_label ini fim now₁).1 =
      build_chart df ticker freq_label ini fim ∧
    (render_dashboard df ticker freq_label ini fim now₁).2 =
      "Fonte: Banco de dados | Atualizado em " ++ formatar_data_ptbr now₁ :=
  ⟨rfl, rfl, rfl⟩

/-- C8: `formatar_data_ptbr` renders every date as day, full month name and
year, reading the month name from the fixed twelve-entry `meses` table (no
locale machinery is modelled anywhere in the embedding); on the docstring's
example date 2025-07-16 it yields "16, Julho, 2025"; and the chart title is
composed from the ticker, the human-readable frequency label and the two
dates so formatted. -/
theorem c8_formatar_data_spec :
    meses.length = 12 ∧
    (∀ dt : Int, formatar_data_ptbr dt =
      toString (civilFromDays dt).2.2 ++ ", " ++
        meses.getD ((civilFromDays dt).2.1 - 1).toNat "" ++ ", " ++
        toString (civilFromDays dt).1) ∧
    formatar_data_ptbr (daysFromCivil 2025 7 16) = "16, Julho, 2025" ∧
    (∀ (ticker freq_label : String) (ini fim : Int),
      titulo_formatado ticker freq_label ini fim =
        ticker ++ " | " ++ freq_label ++ " | " ++
          formatar_data_ptbr ini ++ " - " ++ formatar_data_ptbr fim) :=
  ⟨rfl, fun _ => rfl, by decide, fun _ _ _ _ => rfl⟩

/-- C7: when no observation of the table matches the requested ticker and
window, the series query succeeds with the empty ordered sequence, and the
chart composer applied to the empty sequence yields a spec whose two traces
carry empty data — no error anywhere. -/
theorem c7_empty_series_ok (table : List RawRow) (t : String) (ini fim : Int)
    (freq freq_label : String) (hf : validFreq freq = true)
    (h : ∀ r ∈ table, rowMatches t ini fim r = false) :
    load_data table t ini fim freq = some [] ∧
    (build_chart [] t freq_label ini fim).priceTrace.x = [] ∧
    (build_chart [] t freq_label ini fim).priceTrace.y = [] ∧
    (build_chart [] t freq_label ini fim).volumeTrace.x = [] ∧
    (build_chart [] t freq_label ini fim).volumeTrace.y = [] := by
  have hrows := matchingRows_eq_nil h
  exact ⟨by simp [load_data, hf, hrows, bucketKeys], rfl, rfl, rfl, rfl⟩

/-- C7 witness: a ticker with zero matching rows in the window, at a
concrete table. -/
theorem c7_witness :
    validFreq "M" = true ∧
    (∀ r ∈ ([⟨"VALE3", 10, 30, 100⟩] : List RawRow),
      rowMatches "PETR4" 0 20 r = false) ∧
    (load_data [⟨"VALE3", 10, 30, 100⟩] "PETR4" 0 20 "M" = some [] ∧
      (build_chart [] "PETR4" "Mensal" 0 20).priceTrace.x = [] ∧
      (build_chart [] "PETR4" "Mensal" 0 20).priceTrace.y = [] ∧
      (build_chart [] "PETR4" "Mensal" 0 20).volumeTrace.x = [] ∧
      (build_chart [] "PETR4" "Mensal" 0 20).volumeTrace.y = []) :=
  ⟨by decide, by decide,
    c7_empty_series_ok [⟨"VALE3", 10, 30, 100⟩] "PETR4" 0 20 "M" "Mensal"
      (by decide) (by decide)⟩

/-- C9: every chart spec the composer produces pins the secondary (volume)
y-axis to `rangemode = "tozero"`, whatever the data; the volume bar trace is
the one assigned to that secondary axis. -/
theorem c9_volume_axis_tozero (df : List AggPoint) (ticker freq_label : String)
    (ini fim : Int) :
    (build_chart df ticker freq_label ini fim).yaxis2_rangemode = "tozero" ∧
    (build_chart df ticker freq_label ini fim).volumeSecondaryY = true :=
  ⟨rfl, rfl⟩

/-- C10: each of the three frequencies the sidebar can select maps through
`freq_map` to one of exactly the three fixed `DATE_TRUNC` fields `D`, `W`
and `M`, so the SQL text of the series query ranges over a closed set of
three strings and nothing user-controlled reaches the text through the
granularity. -/
theorem c10_freq_closed (f : String) (hf : f ∈ freq_options) :
    ∃ g, freq_map.lookup f = some g ∧ g ∈ ["D", "W", "M"] ∧ validFreq g = true ∧
      load_data_sql g ∈ [load_data_sql "D", load_data_sql "W", load_data_sql "M"] := by
  simp only [freq_options, List.mem_cons, List.not_mem_nil, or_false] at hf
  rcases hf with rfl | rfl | rfl
  · exact ⟨"D", by decide, by decide, by decide, by simp⟩
  · exact ⟨"W", by decide, by decide, by decide, by simp⟩
  · exact ⟨"M", by decide, by decide, by decide, by simp⟩

/-- C10 witness: the sidebar's default selection, "Semanal". -/
theorem c10_witness :
    "Semanal" ∈ freq_options ∧
    ∃ g, freq_map.lookup "Semanal" = some g ∧ g ∈ ["D", "W", "M"] ∧
      validFreq g = true ∧
      load_data_sql g ∈ [load_data_sql "D", load_data_sql "W", load_data_sql "M"] :=
  ⟨by decide, c10_freq_closed "Semanal" (by decide)⟩
